import Mathlib

/-!
Shallow embedding of the certificate-monitor repository's status, merge,
notification and ticketing logic.  Dates are modelled as proleptic-Gregorian
day numbers (days since 1970-01-01); date strings are parsed by a model of
CPython strptime with format %Y-%m-%d.  A Python dict field that may be
absent is an Option; a field read with dict.get(k, default) is a plain value.
-/

namespace CertMon

/-- Numeric value of a decimal digit character. -/
def digitVal (c : Char) : Nat := c.toNat - 48

/-- Models int(s) on a list of characters: some value when the list is
nonempty and all characters are decimal digits, else none.  This matches
when a CPython strptime capture group of digits converts successfully. -/
def listToNat? (cs : List Char) : Option Nat :=
  if cs ≠ [] ∧ cs.all Char.isDigit then
    some (cs.foldl (fun a c => a * 10 + digitVal c) 0)
  else none

/-- Gregorian leap-year test, as in Python datetime. -/
def isLeap (y : Nat) : Bool := y % 4 = 0 ∧ (y % 100 ≠ 0 ∨ y % 400 = 0)

/-- Days in a month of the proleptic Gregorian calendar. -/
def daysInMonth (y m : Nat) : Nat :=
  if m = 2 then (if isLeap y then 29 else 28)
  else if m = 4 ∨ m = 6 ∨ m = 9 ∨ m = 11 then 30
  else 31

/-- Day number of a civil date (days since 1970-01-01), the standard
days-from-civil computation; valid for year ≥ 1 as guaranteed by parsing. -/
def daysFromCivil (y m d : Nat) : Int :=
  let yAdj : Nat := if m ≤ 2 then y - 1 else y
  let era : Nat := yAdj / 400
  let yoe : Nat := yAdj % 400
  let mp : Nat := if m > 2 then m - 3 else m + 9
  let doy : Nat := (153 * mp + 2) / 5 + (d - 1)
  let doe : Nat := yoe * 365 + yoe / 4 - yoe / 100 + doy
  (((era * 146097 + doe : Nat) : Int)) - 719468

/-- Validates the three character groups of a strptime match with a known
month value: CPython accepts exactly four year digits, one or two day
digits, and datetime construction then requires year ≥ 1 (MINYEAR), a month
in range and a day valid for the month. -/
def mkDateM (ys : List Char) (m : Nat) (ds : List Char) :
    Option (Nat × Nat × Nat) :=
  match listToNat? ys, listToNat? ds with
  | some y, some d =>
    if ys.length = 4 ∧ ds.length ≤ 2 ∧ 1 ≤ y ∧ 1 ≤ m ∧ m ≤ 12 ∧
       1 ≤ d ∧ d ≤ daysInMonth y m then
      some (y, m, d)
    else none
  | _, _ => none

/-- Validates year, numeric month and day character groups of a strptime
match: the month is one or two digits in range, the rest as in mkDateM. -/
def mkDate (ys ms ds : List Char) : Option (Nat × Nat × Nat) :=
  match listToNat? ms with
  | some m => if ms.length ≤ 2 then mkDateM ys m ds else none
  | none => none

/-- Models datetime.strptime(s, str of percent Y-percent m-percent d) from
CPython: the year is exactly four digits, month and day are one or two
digits in range, the separators are literal dashes, the whole string must
match, and the resulting date must be a valid calendar date with year ≥ 1
(datetime.MINYEAR).  Returns the (year, month, day) triple on success. -/
def strptimeYMD (s : String) : Option (Nat × Nat × Nat) :=
  match s.data.splitOn '-' with
  | [ys, ms, ds] => mkDate ys ms ds
  | _ => none

/-- Parses a date string in the canonical format and converts it to a day
number; models strptime followed by datetime subtraction semantics. -/
def parseDate (s : String) : Option Int :=
  (strptimeYMD s).map fun t => daysFromCivil t.1 t.2.1 t.2.2

/-- Models str.strip() for whitespace characters. -/
def pyStrip (s : String) : String :=
  String.mk (((s.data.dropWhile Char.isWhitespace).reverse.dropWhile
    Char.isWhitespace).reverse)

/-- Models the Python membership test of a character in a string. -/
def pyContains (c : Char) (s : String) : Bool := s.data.contains c

/-- The current UTC instant as seen by datetime.utcnow(): its civil day
number and whether the clock reads exactly midnight (time-of-day zero). -/
structure Now where
  day : Int
  isMidnight : Bool
deriving DecidableEq

/-- Models (expiry_midnight - now).days for Python timedelta, which floors:
when the current time has a nonzero time-of-day component the difference
loses one day. -/
def timedeltaDays (expiryDay : Int) (now : Now) : Int :=
  expiryDay - now.day - (if now.isMidnight then 0 else 1)

/-- Models calculate_days_until_expiry from src/utils/certificate_helpers.py:
today is truncated to midnight, so the result is the plain difference of day
numbers; any parse failure is swallowed and yields 0. -/
def calculate_days_until_expiry (expiry_date : String) (todayDay : Int) : Int :=
  match parseDate expiry_date with
  | some e => e - todayDay
  | none => 0

/-- The two manual statuses the code treats as sticky. -/
def manual_statuses : List String := ["Renewal in Progress", "Renewal Done"]

/-- Models determine_certificate_status from
src/utils/certificate_helpers.py: a sticky current status is returned first;
otherwise the status is derived from days until expiry with the hardcoded
30-day threshold. -/
def determine_certificate_status (expiry_date : String)
    (current_status : Option String) (todayDay : Int) : String :=
  match current_status with
  | some s =>
    if s ∈ manual_statuses then s
    else
      let days_left := calculate_days_until_expiry expiry_date todayDay
      if days_left < 0 then "Expired"
      else if days_left ≤ 30 then "Due for Renewal"
      else "Active"
  | none =>
    let days_left := calculate_days_until_expiry expiry_date todayDay
    if days_left < 0 then "Expired"
    else if days_left ≤ 30 then "Due for Renewal"
    else "Active"

/-- Models calculate_new_status from lambda/certificate_monitor.py: days are
computed against the full current time (not truncated to midnight), the
expired branch is tested before the sticky branch, and a parse failure keeps
the current status. -/
def calculate_new_status (expiry_date : String) (current_status : String)
    (threshold : Int) (now : Now) : String :=
  match parseDate expiry_date with
  | none => current_status
  | some e =>
    let days := timedeltaDays e now
    if days < 0 then "Expired"
    else if days ≤ threshold ∧ current_status ∉ manual_statuses then
      "Due for Renewal"
    else if current_status ∈ manual_statuses then current_status
    else "Active"

/-- Models is_certificate_expiring, identical in
lambda/certificate_monitor.py and lambda/servicenow_ticket_creator.py:
all three dates must parse and the expiry must lie between the current and
the threshold dates inclusive; any parse failure yields false. -/
def is_certificate_expiring (expiry_date current_date threshold_date :
    String) : Bool :=
  match parseDate expiry_date, parseDate current_date,
      parseDate threshold_date with
  | some e, some c, some t => decide (c ≤ e ∧ e ≤ t)
  | _, _, _ => false

/-- Models calculate_priority from lambda/servicenow_ticket_creator.py. -/
def calculate_priority (days_until_expiry : Int) : String :=
  if days_until_expiry < 0 then "1"
  else if days_until_expiry < 7 then "2"
  else if days_until_expiry < 14 then "3"
  else if days_until_expiry < 30 then "4"
  else "5"

/-- Numeric reading of a ServiceNow priority string, for stating
monotonicity of the priority mapping. -/
def priorityRank (p : String) : Nat :=
  if p = "1" then 1 else if p = "2" then 2 else if p = "3" then 3
  else if p = "4" then 4 else if p = "5" then 5 else 0

/-- A DynamoDB certificate item as the monitor and ticket-creator lambdas
read it: every field is accessed with dict.get and a string default, so an
absent attribute is the empty string. -/
structure Cert where
  CertificateID : String
  CertificateName : String
  ExpiryDate : String
  Status : String
  OwnerEmail : String
  SupportEmail : String
  IncidentNumber : String
deriving DecidableEq

/-- Models scan_expiring_certificates, identical filtering logic in
lambda/certificate_monitor.py and lambda/servicenow_ticket_creator.py: keep
the items whose ExpiryDate is present (truthy) and pass
is_certificate_expiring for the current and threshold dates. -/
def scan_expiring_certificates (items : List Cert)
    (current_date threshold_date : String) : List Cert :=
  items.filter fun item =>
    item.ExpiryDate != "" &&
      is_certificate_expiring item.ExpiryDate current_date threshold_date

/-- Models filter_certificates_needing_tickets from
lambda/servicenow_ticket_creator.py: a certificate is skipped when its
stripped IncidentNumber is truthy, or its status is Renewal Done or
Renewed. -/
def filter_certificates_needing_tickets (certificates : List Cert) :
    List Cert :=
  certificates.filter fun cert =>
    pyStrip cert.IncidentNumber == "" &&
      !(["Renewal Done", "Renewed"].contains cert.Status)

/-- Appends a certificate to the group of the given key in an association
list, creating the group at the end when absent: models inserting into a
Python dict of lists while keeping insertion order. -/
def addToGroup (groups : List (String × List Cert)) (key : String)
    (cert : Cert) : List (String × List Cert) :=
  match groups with
  | [] => [(key, [cert])]
  | (k, cs) :: rest =>
    if k = key then (k, cs ++ [cert]) :: rest
    else (k, cs) :: addToGroup rest key cert

/-- One iteration of the grouping loop of group_certificates_by_owner in
lambda/certificate_monitor.py: the certificate joins the group of its
stripped OwnerEmail when nonempty, and additionally of its stripped
SupportEmail when nonempty and different from the owner. -/
def groupStep (groups : List (String × List Cert)) (cert : Cert) :
    List (String × List Cert) :=
  let owner := pyStrip cert.OwnerEmail
  let support := pyStrip cert.SupportEmail
  let groups1 := if owner != "" then addToGroup groups owner cert
    else groups
  if support != "" && support != owner then
    addToGroup groups1 support cert
  else groups1

/-- Models group_certificates_by_owner from lambda/certificate_monitor.py:
the grouping loop run over the whole certificate list, starting from an
empty dict. -/
def group_certificates_by_owner (certificates : List Cert) :
    List (String × List Cert) :=
  certificates.foldl groupStep []

/-- Models the send loop of process_notifications from
lambda/certificate_monitor.py: a notification is attempted for exactly the
owner groups whose key is truthy and contains an at sign; the result lists
each notified recipient with the certificates in its batch. -/
def process_notifications_sent (certificates : List Cert) :
    List (String × List Cert) :=
  (group_certificates_by_owner certificates).filter fun g =>
    g.1 != "" && pyContains '@' g.1

/-- Models update_certificate_statuses from lambda/certificate_monitor.py:
for each certificate the new status is computed by calculate_new_status and
a write is issued only when it differs from the stored status; the result
pairs each written certificate with the status written. -/
def update_certificate_statuses (certs : List Cert) (threshold : Int)
    (now : Now) : List (Cert × String) :=
  certs.filterMap fun cert =>
    let new_status := calculate_new_status cert.ExpiryDate cert.Status
      threshold now
    if new_status != cert.Status then some (cert, new_status) else none

/-- A stored certificate record as seen by the scanner's update path in
lambda/server_certificate_scanner.py: attributes other than the key may be
absent, so they are Options.  The listed preserved fields are exactly
PRESERVE_FIELDS of that file. -/
structure StoredCert where
  CertificateID : String
  CertificateName : Option String
  ExpiryDate : Option String
  Status : Option String
  LastScannedOn : Option String
  OwnerEmail : Option String
  SupportEmail : Option String
  Application : Option String
  Notes : Option String
  RenewalHistory : Option String
  CustomTags : Option String
  IncidentNumber : Option String
deriving DecidableEq

/-- A certificate dict produced by a server scan, as passed to
store_certificate: the scan always fills CertificateID, CertificateName,
ExpiryDate, Status and LastScannedOn, while the preserved fields may be
absent. -/
structure ScanObservation where
  CertificateID : String
  CertificateName : String
  ExpiryDate : String
  Status : String
  LastScannedOn : String
  OwnerEmail : Option String
  SupportEmail : Option String
  Application : Option String
  Notes : Option String
  RenewalHistory : Option String
  CustomTags : Option String
  IncidentNumber : Option String
deriving DecidableEq

/-- Models the PRESERVE_FIELDS loop of store_certificate in
lambda/server_certificate_scanner.py, which mutates the in-memory
certificate dict: a preserved field is copied from the existing record only
when present there and absent from the observation. -/
def preserve_manual_fields (existing_cert : StoredCert)
    (certificate : ScanObservation) : ScanObservation :=
  { certificate with
    OwnerEmail := certificate.OwnerEmail <|> existing_cert.OwnerEmail
    SupportEmail := certificate.SupportEmail <|> existing_cert.SupportEmail
    Application := certificate.Application <|> existing_cert.Application
    Notes := certificate.Notes <|> existing_cert.Notes
    RenewalHistory := certificate.RenewalHistory <|>
      existing_cert.RenewalHistory
    CustomTags := certificate.CustomTags <|> existing_cert.CustomTags
    IncidentNumber := certificate.IncidentNumber <|>
      existing_cert.IncidentNumber }

/-- Models the stored result of the update branch of store_certificate in
lambda/server_certificate_scanner.py: the DynamoDB update expression sets
only ExpiryDate, Status and LastScannedOn from the observation, so every
other attribute of the existing item, the preserved fields included, is left
exactly as stored. -/
def store_certificate_update (existing_cert : StoredCert)
    (certificate : ScanObservation) : StoredCert :=
  { existing_cert with
    ExpiryDate := some certificate.ExpiryDate
    Status := some certificate.Status
    LastScannedOn := some certificate.LastScannedOn }

/-- The observed facts update_existing_certificate in
lambda/acm_certificate_sync.py derives from an ACM certificate: ARN and
Status are required, NotAfter may be missing (None keeps the stored expiry),
and the remaining fields are always produced (the type and key algorithm
default to UNKNOWN). -/
structure AcmObservation where
  ARN : String
  AcmStatus : String
  NotAfter : Option String
  Region : String
  LastSynced : String
  AcmType : String
  KeyAlgorithm : String
deriving DecidableEq

/-- A stored record as seen by the ACM sync update path; preserved manual
contact fields are carried to show they are untouched. -/
structure AcmStoredCert where
  CertificateID : String
  ACM_ARN : Option String
  ACM_Status : Option String
  ExpiryDate : Option String
  Region : Option String
  LastSyncedFromACM : Option String
  ACM_Type : Option String
  ACM_KeyAlgorithm : Option String
  Source : Option String
  OwnerEmail : Option String
  SupportEmail : Option String
  Application : Option String
  Notes : Option String
  IncidentNumber : Option String
deriving DecidableEq

/-- Models the stored result of update_existing_certificate in
lambda/acm_certificate_sync.py: each ACM field with a non-None value is
written when it differs from the stored value (writing an equal value is
skipped, leaving the same result), NotAfter None leaves the stored expiry,
Source is set to ACM only when absent, and no other attribute is part of
the update expression. -/
def update_existing_certificate (existing_cert : AcmStoredCert)
    (acm_cert : AcmObservation) : AcmStoredCert :=
  { existing_cert with
    ACM_ARN := some acm_cert.ARN
    ACM_Status := some acm_cert.AcmStatus
    ExpiryDate := match acm_cert.NotAfter with
      | some d => some d
      | none => existing_cert.ExpiryDate
    Region := some acm_cert.Region
    LastSyncedFromACM := some acm_cert.LastSynced
    ACM_Type := some acm_cert.AcmType
    ACM_KeyAlgorithm := some acm_cert.KeyAlgorithm
    Source := match existing_cert.Source with
      | none => some "ACM"
      | some s => some s }

/-- Character for a decimal digit value below ten. -/
def digitChar (n : Nat) : Char := Char.ofNat (48 + n)

/-- Two-digit zero-padded rendering, as strftime writes months and days. -/
def pad2 (n : Nat) : String :=
  String.mk [digitChar (n / 10 % 10), digitChar (n % 10)]

/-- Four-digit zero-padded rendering, as strftime writes years ≤ 9999. -/
def pad4 (n : Nat) : String :=
  String.mk [digitChar (n / 1000 % 10), digitChar (n / 100 % 10),
    digitChar (n / 10 % 10), digitChar (n % 10)]

/-- Models strftime with format percent Y-percent m-percent d, the canonical
rendering the excel processor stores. -/
def strftimeYMD (y m d : Nat) : String :=
  pad4 y ++ "-" ++ pad2 m ++ "-" ++ pad2 d

/-- Recognizes a string already in the canonical zero-padded YYYY-MM-DD
format of a valid calendar date. -/
def isCanonicalDate (s : String) : Bool :=
  match strptimeYMD s with
  | some t => strftimeYMD t.1 t.2.1 t.2.2 == s
  | none => false

/-- Full English month names, lowercased, for the percent B directive
(CPython matches month names case-insensitively). -/
def monthNames : List String :=
  ["january", "february", "march", "april", "may", "june", "july",
   "august", "september", "october", "november", "december"]

/-- Abbreviated English month names, lowercased, for percent b. -/
def monthAbbrevs : List String :=
  ["jan", "feb", "mar", "apr", "may", "jun", "jul", "aug", "sep", "oct",
   "nov", "dec"]

/-- Month number from a case-insensitive name match against a name table. -/
def monthFromName (table : List String) (cs : List Char) : Option Nat :=
  (table.indexOf? (String.mk (cs.map Char.toLower))).map (· + 1)

/-- Models strptime with day/month/year and a slash separator. -/
def strptimeDMYslash (s : String) : Option (Nat × Nat × Nat) :=
  match s.data.splitOn '/' with
  | [ds, ms, ys] => mkDate ys ms ds
  | _ => none

/-- Models strptime with month/day/year and a slash separator. -/
def strptimeMDYslash (s : String) : Option (Nat × Nat × Nat) :=
  match s.data.splitOn '/' with
  | [ms, ds, ys] => mkDate ys ms ds
  | _ => none

/-- Models strptime with day-month-year and a dash separator. -/
def strptimeDMYdash (s : String) : Option (Nat × Nat × Nat) :=
  match s.data.splitOn '-' with
  | [ds, ms, ys] => mkDate ys ms ds
  | _ => none

/-- Models strptime with year/month/day and a slash separator. -/
def strptimeYMDslash (s : String) : Option (Nat × Nat × Nat) :=
  match s.data.splitOn '/' with
  | [ys, ms, ds] => mkDate ys ms ds
  | _ => none

/-- Models strptime with day, full month name and year separated by single
spaces (format whitespace is modelled as one space). -/
def strptimeDBY (s : String) : Option (Nat × Nat × Nat) :=
  match s.data.splitOn ' ' with
  | [ds, name, ys] =>
    match monthFromName monthNames name with
    | some m => mkDateM ys m ds
    | none => none
  | _ => none

/-- Models strptime with full month name, day, a comma and year. -/
def strptimeBDY (s : String) : Option (Nat × Nat × Nat) :=
  match s.data.splitOn ' ' with
  | [name, dsc, ys] =>
    match dsc.reverse with
    | ',' :: dsr =>
      match monthFromName monthNames name with
      | some m => mkDateM ys m dsr.reverse
      | none => none
    | _ => none
  | _ => none

/-- Models strptime with day, abbreviated month name and year. -/
def strptimeDbY (s : String) : Option (Nat × Nat × Nat) :=
  match s.data.splitOn ' ' with
  | [ds, name, ys] =>
    match monthFromName monthAbbrevs name with
    | some m => mkDateM ys m ds
    | none => none
  | _ => none

/-- Models the date_formats loop of parse_expiry_date in
lambda/excel_processor.py: the eight formats are tried in order and the
first successful parse wins. -/
def tryFormats (s : String) : Option (Nat × Nat × Nat) :=
  (strptimeYMD s) <|> (strptimeDMYslash s) <|> (strptimeMDYslash s) <|>
    (strptimeDMYdash s) <|> (strptimeYMDslash s) <|> (strptimeDBY s) <|>
    (strptimeBDY s) <|> (strptimeDbY s)

/-- The expiry cell of a spreadsheet row as parse_expiry_date receives it:
missing (None or NaN), an already-parsed datetime object, or a raw string
value. -/
inductive ExcelDateValue where
  | missing : ExcelDateValue
  | dtObj (y m d : Nat) : ExcelDateValue
  | strVal (raw : String) : ExcelDateValue
deriving DecidableEq

/-- Models parse_expiry_date from lambda/excel_processor.py: a missing value
gives None, a datetime object is rendered canonically, a string is stripped
and tried against the format list, and when no format matches the stripped
original string is returned unchanged after only a log warning. -/
def parse_expiry_date (date_value : ExcelDateValue) : Option String :=
  match date_value with
  | .missing => none
  | .dtObj y m d => some (strftimeYMD y m d)
  | .strVal raw =>
    let date_str := pyStrip raw
    match tryFormats date_str with
    | some t => some (strftimeYMD t.1 t.2.1 t.2.2)
    | none => some date_str

/-- Models calculate_certificate_status from lambda/excel_processor.py: a
falsy expiry gives Unknown, a parse failure gives Unknown, and otherwise
days are computed against the full current time with the 30-day
threshold. -/
def calculate_certificate_status (expiry_date : Option String) (now : Now) :
    String :=
  match expiry_date with
  | none => "Unknown"
  | some s =>
    if s = "" then "Unknown"
    else
      match parseDate s with
      | none => "Unknown"
      | some e =>
        let days := timedeltaDays e now
        if days < 0 then "Expired"
        else if days ≤ 30 then "Due for Renewal"
        else "Active"

/-- The expiry-related part of a certificate item built by
prepare_certificate_data in lambda/excel_processor.py. -/
structure ExcelCertData where
  ExpiryDate : Option String
  Status : String
deriving DecidableEq

/-- Models prepare_certificate_data from lambda/excel_processor.py,
restricted to the expiry date and status it derives: the parsed expiry is
stored as-is (the final cleanup drops None and empty-string values) and the
status is computed from the parsed expiry value. -/
def prepare_certificate_data (date_value : ExcelDateValue) (now : Now) :
    ExcelCertData :=
  let expiry_date := parse_expiry_date date_value
  let status := calculate_certificate_status expiry_date now
  { ExpiryDate :=
      match expiry_date with
      | some s => if s = "" then none else some s
      | none => none
    Status := status }

/-- A certificate sits under a key in an owner grouping when some group of
that key contains it. -/
def inGroups (groups : List (String × List Cert)) (key : String)
    (c : Cert) : Prop :=
  ∃ cs, (key, cs) ∈ groups ∧ c ∈ cs

lemma addToGroup_nil (key : String) (c : Cert) :
    addToGroup [] key c = [(key, [c])] := rfl

lemma addToGroup_cons_eq {k key : String} (cs : List Cert)
    (tl : List (String × List Cert)) (c : Cert) (h : k = key) :
    addToGroup ((k, cs) :: tl) key c = (k, cs ++ [c]) :: tl := by
  simp [addToGroup, h]

lemma addToGroup_cons_ne {k key : String} (cs : List Cert)
    (tl : List (String × List Cert)) (c : Cert) (h : ¬ k = key) :
    addToGroup ((k, cs) :: tl) key c = (k, cs) :: addToGroup tl key c := by
  simp [addToGroup, h]

lemma inGroups_addToGroup_self (groups : List (String × List Cert))
    (key : String) (c : Cert) : inGroups (addToGroup groups key c) key c := by
  induction groups with
  | nil =>
    exact ⟨[c], List.mem_singleton.mpr rfl, List.mem_singleton.mpr rfl⟩
  | cons hd tl ih =>
    obtain ⟨k, cs⟩ := hd
    by_cases hk : k = key
    · rw [addToGroup_cons_eq cs tl c hk]
      subst hk
      exact ⟨cs ++ [c], List.mem_cons_self _ _,
        List.mem_append_right _ (List.mem_singleton.mpr rfl)⟩
    · rw [addToGroup_cons_ne cs tl c hk]
      obtain ⟨cs2, hmem, hc⟩ := ih
      exact ⟨cs2, List.mem_cons_of_mem _ hmem, hc⟩

lemma inGroups_addToGroup_of {groups : List (String × List Cert)}
    {key : String} {c : Cert} (key2 : String) (c2 : Cert)
    (h : inGroups groups key c) :
    inGroups (addToGroup groups key2 c2) key c := by
  induction groups with
  | nil => obtain ⟨cs, hmem, _⟩ := h; simp at hmem
  | cons hd tl ih =>
    obtain ⟨k, cs⟩ := hd
    obtain ⟨cs2, hmem, hc⟩ := h
    by_cases hk : k = key2
    · rw [addToGroup_cons_eq cs tl c2 hk]
      rcases List.mem_cons.mp hmem with heq | htl
      · injection heq with h1 h2
        subst h1
        exact ⟨cs ++ [c2], List.mem_cons_self _ _,
          List.mem_append_left _ (h2 ▸ hc)⟩
      · exact ⟨cs2, List.mem_cons_of_mem _ htl, hc⟩
    · rw [addToGroup_cons_ne cs tl c2 hk]
      rcases List.mem_cons.mp hmem with heq | htl
      · exact ⟨cs2, heq ▸ List.mem_cons_self _ _, hc⟩
      · obtain ⟨cs3, hmem3, hc3⟩ := ih ⟨cs2, htl, hc⟩
        exact ⟨cs3, List.mem_cons_of_mem _ hmem3, hc3⟩

lemma inGroups_groupStep_of {groups : List (String × List Cert)}
    {key : String} {c : Cert} (c2 : Cert) (h : inGroups groups key c) :
    inGroups (groupStep groups c2) key c := by
  simp only [groupStep]
  by_cases hs : (pyStrip c2.SupportEmail != "" &&
      pyStrip c2.SupportEmail != pyStrip c2.OwnerEmail) = true
  · rw [if_pos hs]
    apply inGroups_addToGroup_of
    by_cases ho : (pyStrip c2.OwnerEmail != "") = true
    · rw [if_pos ho]; exact inGroups_addToGroup_of _ _ h
    · rw [if_neg ho]; exact h
  · rw [if_neg hs]
    by_cases ho : (pyStrip c2.OwnerEmail != "") = true
    · rw [if_pos ho]; exact inGroups_addToGroup_of _ _ h
    · rw [if_neg ho]; exact h

lemma inGroups_groupStep_self (groups : List (String × List Cert))
    (c : Cert) (howner : pyStrip c.OwnerEmail ≠ "") :
    inGroups (groupStep groups c) (pyStrip c.OwnerEmail) c := by
  simp only [groupStep]
  have hb : (pyStrip c.OwnerEmail != "") = true := by
    simpa [bne_iff_ne] using howner
  by_cases hs : (pyStrip c.SupportEmail != "" &&
      pyStrip c.SupportEmail != pyStrip c.OwnerEmail) = true
  · rw [if_pos hs, if_pos hb]
    exact inGroups_addToGroup_of _ _ (inGroups_addToGroup_self _ _ _)
  · rw [if_neg hs, if_pos hb]
    exact inGroups_addToGroup_self _ _ _

lemma inGroups_foldl_of {key : String} {c : Cert} :
    ∀ (l : List Cert) (groups : List (String × List Cert)),
    inGroups groups key c → inGroups (l.foldl groupStep groups) key c := by
  intro l
  induction l with
  | nil => intro groups h; exact h
  | cons hd tl ih =>
    intro groups h
    exact ih (groupStep groups hd) (inGroups_groupStep_of hd h)

lemma inGroups_foldl_mem {c : Cert} (howner : pyStrip c.OwnerEmail ≠ "") :
    ∀ (l : List Cert) (groups : List (String × List Cert)), c ∈ l →
    inGroups (l.foldl groupStep groups) (pyStrip c.OwnerEmail) c := by
  intro l
  induction l with
  | nil => intro groups h; simp at h
  | cons hd tl ih =>
    intro groups h
    rcases List.mem_cons.mp h with heq | htl
    · subst heq
      exact inGroups_foldl_of tl _ (inGroups_groupStep_self groups c howner)
    · exact ih (groupStep groups hd) htl

lemma inGroups_groupStep_self_support (groups : List (String × List Cert))
    (c : Cert) (hsupp : pyStrip c.SupportEmail ≠ "")
    (hdiff : pyStrip c.SupportEmail ≠ pyStrip c.OwnerEmail) :
    inGroups (groupStep groups c) (pyStrip c.SupportEmail) c := by
  simp only [groupStep]
  have hb : (pyStrip c.SupportEmail != "" &&
      pyStrip c.SupportEmail != pyStrip c.OwnerEmail) = true := by
    simp [bne_iff_ne, hsupp, hdiff]
  rw [if_pos hb]
  exact inGroups_addToGroup_self _ _ _

lemma inGroups_foldl_mem_support {c : Cert}
    (hsupp : pyStrip c.SupportEmail ≠ "")
    (hdiff : pyStrip c.SupportEmail ≠ pyStrip c.OwnerEmail) :
    ∀ (l : List Cert) (groups : List (String × List Cert)), c ∈ l →
    inGroups (l.foldl groupStep groups) (pyStrip c.SupportEmail) c := by
  intro l
  induction l with
  | nil => intro groups h; simp at h
  | cons hd tl ih =>
    intro groups h
    rcases List.mem_cons.mp h with heq | htl
    · subst heq
      exact inGroups_foldl_of tl _
        (inGroups_groupStep_self_support groups c hsupp hdiff)
    · exact ih (groupStep groups hd) htl

lemma mem_of_inGroups_addToGroup {groups : List (String × List Cert)}
    {key key2 : String} {c c2 : Cert}
    (h : inGroups (addToGroup groups key2 c2) key c) :
    inGroups groups key c ∨ c = c2 := by
  induction groups with
  | nil =>
    obtain ⟨cs, hmem, hc⟩ := h
    rw [addToGroup_nil] at hmem
    rcases List.mem_singleton.mp hmem with heq
    injection heq with h1 h2
    exact Or.inr (List.mem_singleton.mp (h2 ▸ hc))
  | cons hd tl ih =>
    obtain ⟨k, cs⟩ := hd
    obtain ⟨cs2, hmem, hc⟩ := h
    by_cases hk : k = key2
    · rw [addToGroup_cons_eq cs tl c2 hk] at hmem
      rcases List.mem_cons.mp hmem with heq | htl
      · injection heq with h1 h2
        subst h1
        rcases List.mem_append.mp (h2 ▸ hc) with hl | hr
        · exact Or.inl ⟨cs, List.mem_cons_self _ _, hl⟩
        · exact Or.inr (List.mem_singleton.mp hr)
      · exact Or.inl ⟨cs2, List.mem_cons_of_mem _ htl, hc⟩
    · rw [addToGroup_cons_ne cs tl c2 hk] at hmem
      rcases List.mem_cons.mp hmem with heq | htl
      · exact Or.inl ⟨cs2, heq ▸ List.mem_cons_self _ _, hc⟩
      · rcases ih ⟨cs2, htl, hc⟩ with ⟨cs3, hmem3, hc3⟩ | hceq
        · exact Or.inl ⟨cs3, List.mem_cons_of_mem _ hmem3, hc3⟩
        · exact Or.inr hceq

lemma mem_of_inGroups_groupStep {groups : List (String × List Cert)}
    {key : String} {c c2 : Cert} (h : inGroups (groupStep groups c2) key c) :
    inGroups groups key c ∨ c = c2 := by
  simp only [groupStep] at h
  by_cases hs : (pyStrip c2.SupportEmail != "" &&
      pyStrip c2.SupportEmail != pyStrip c2.OwnerEmail) = true
  · rw [if_pos hs] at h
    rcases mem_of_inGroups_addToGroup h with h2 | hceq
    · by_cases ho : (pyStrip c2.OwnerEmail != "") = true
      · rw [if_pos ho] at h2
        exact mem_of_inGroups_addToGroup h2
      · rw [if_neg ho] at h2
        exact Or.inl h2
    · exact Or.inr hceq
  · rw [if_neg hs] at h
    by_cases ho : (pyStrip c2.OwnerEmail != "") = true
    · rw [if_pos ho] at h
      exact mem_of_inGroups_addToGroup h
    · rw [if_neg ho] at h
      exact Or.inl h

lemma mem_of_inGroups_foldl {key : String} {c : Cert} :
    ∀ (l : List Cert) (groups : List (String × List Cert)),
    inGroups (l.foldl groupStep groups) key c →
    inGroups groups key c ∨ c ∈ l := by
  intro l
  induction l with
  | nil => intro groups h; exact Or.inl h
  | cons hd tl ih =>
    intro groups h
    rcases ih (groupStep groups hd) h with h2 | hmem
    · rcases mem_of_inGroups_groupStep h2 with h3 | hceq
      · exact Or.inl h3
      · exact Or.inr (by simp [hceq])
    · exact Or.inr (List.mem_cons_of_mem _ hmem)

/-- Claim C1 counterexample: the reconciliation function
calculate_new_status of the monitor lambda does not return a sticky stored
status unchanged when days until expiry is negative; for an expired
certificate in status Renewal in Progress it returns Expired, because the
expired branch is tested before the sticky branch. -/
theorem C1_counterexample :
    calculate_new_status "2020-01-01" "Renewal in Progress" 30
      ⟨daysFromCivil 2026 10 12, false⟩ = "Expired" ∧
    "Renewal in Progress" ∈ manual_statuses ∧
    ("Expired" : String) ≠ "Renewal in Progress" := by
  decide

/-- Claim C1 as amended: determine_certificate_status of the helpers module
returns a sticky stored status unchanged for every expiry date, while
calculate_new_status of the monitor does so only when the date fails to
parse or the computed days until expiry is nonnegative; for a parseable
date already in the past it returns Expired even for sticky statuses. -/
theorem C1_amended_sticky_preservation :
    ∀ (s cs : String) (t th : Int) (now : Now),
    cs ∈ manual_statuses →
    determine_certificate_status s (some cs) t = cs ∧
    (parseDate s = none → calculate_new_status s cs th now = cs) ∧
    (∀ e : Int, parseDate s = some e → 0 ≤ timedeltaDays e now →
      calculate_new_status s cs th now = cs) ∧
    (∀ e : Int, parseDate s = some e → timedeltaDays e now < 0 →
      calculate_new_status s cs th now = "Expired") := by
  intro s cs t th now hcs
  refine ⟨?_, ?_, ?_, ?_⟩
  · simp [determine_certificate_status, hcs]
  · intro hp
    simp [calculate_new_status, hp]
  · intro e hp hd
    have h1 : ¬ timedeltaDays e now < 0 := by omega
    have h2 : ¬ (timedeltaDays e now ≤ th ∧ cs ∉ manual_statuses) := by
      simp [hcs]
    simp only [calculate_new_status, hp]
    rw [if_neg h1, if_neg h2, if_pos hcs]
  · intro e hp hd
    simp only [calculate_new_status, hp]
    rw [if_pos hd]

/-- Claim C1 witness: a concrete sticky status is preserved by the helper
for a long-expired date and by the monitor for a far-future date. -/
theorem C1_witness :
    determine_certificate_status "1999-01-01" (some "Renewal Done")
      (daysFromCivil 2026 10 12) = "Renewal Done" ∧
    calculate_new_status "2099-01-01" "Renewal Done" 30
      ⟨daysFromCivil 2026 10 12, false⟩ = "Renewal Done" := by
  have h1 := C1_amended_sticky_preservation "1999-01-01" "Renewal Done"
    (daysFromCivil 2026 10 12) 30 ⟨daysFromCivil 2026 10 12, false⟩
    (by decide)
  have h2 := C1_amended_sticky_preservation "2099-01-01" "Renewal Done"
    (daysFromCivil 2026 10 12) 30 ⟨daysFromCivil 2026 10 12, false⟩
    (by decide)
  exact ⟨h1.1, h2.2.2.1 (daysFromCivil 2099 1 1) (by decide) (by decide)⟩

/-- Claim C2: for a non-sticky current status and a parseable expiry date,
both reconciliation functions return exactly Expired when days until expiry
is negative, Due for Renewal when it is between zero and the threshold
inclusive, and Active above the threshold, computed with each function's
own notion of days until expiry. -/
theorem C2_nonsticky_status_mapping :
    ∀ (s : String) (e t : Int) (c : Option String) (cur : String)
      (th : Int) (now : Now),
    parseDate s = some e →
    c.getD "" ∉ manual_statuses →
    cur ∉ manual_statuses →
    determine_certificate_status s c t =
      (if e - t < 0 then "Expired"
       else if e - t ≤ 30 then "Due for Renewal" else "Active") ∧
    calculate_new_status s cur th now =
      (if timedeltaDays e now < 0 then "Expired"
       else if timedeltaDays e now ≤ th then "Due for Renewal"
       else "Active") := by
  intro s e t c cur th now hp hc hcur
  constructor
  · cases c with
    | none =>
      simp [determine_certificate_status, calculate_days_until_expiry, hp]
    | some x =>
      have hx : x ∉ manual_statuses := by simpa using hc
      simp [determine_certificate_status, hx, calculate_days_until_expiry,
        hp]
  · simp only [calculate_new_status, hp]
    by_cases hd : timedeltaDays e now < 0
    · rw [if_pos hd, if_pos hd]
    · rw [if_neg hd, if_neg hd]
      by_cases hth : timedeltaDays e now ≤ th
      · rw [if_pos ⟨hth, hcur⟩, if_pos hth]
      · rw [if_neg (fun hand => hth hand.1), if_neg hth, if_neg hcur]

/-- Claim C2 witness: a record 45 days from expiry in status Active stays
Active under both reconciliation functions, so no change is reported. -/
theorem C2_witness :
    determine_certificate_status "2026-11-26" (some "Active")
      (daysFromCivil 2026 10 12) = "Active" ∧
    calculate_new_status "2026-11-26" "Active" 30
      ⟨daysFromCivil 2026 10 12, false⟩ = "Active" := by
  have h := C2_nonsticky_status_mapping "2026-11-26"
    (daysFromCivil 2026 11 26) (daysFromCivil 2026 10 12) (some "Active")
    "Active" 30 ⟨daysFromCivil 2026 10 12, false⟩
    (by decide) (by decide) (by decide)
  exact ⟨h.1.trans (by decide), h.2.trans (by decide)⟩

/-- Claim C3 counterexample: an unparsable expiry date does not make the
reconciler fail; determine_certificate_status silently treats the record as
expiring today and produces the date-derived status Due for Renewal. -/
theorem C3_counterexample :
    parseDate "not-a-date" = none ∧
    determine_certificate_status "not-a-date" (some "Active")
      (daysFromCivil 2026 10 12) = "Due for Renewal" := by
  decide

/-- Claim C3 as amended: no error is raised on an unparsable expiry date;
calculate_days_until_expiry swallows the parse failure and returns 0, so
determine_certificate_status returns Due for Renewal for every non-sticky
current status (sticky statuses are still returned unchanged), while the
monitor's calculate_new_status returns the stored status unchanged. -/
theorem C3_amended_unparsable_date_behavior :
    ∀ (s : String) (t : Int) (c : Option String) (cur : String)
      (th : Int) (now : Now),
    parseDate s = none →
    calculate_days_until_expiry s t = 0 ∧
    (c.getD "" ∉ manual_statuses →
      determine_certificate_status s c t = "Due for Renewal") ∧
    (∀ x, c = some x → x ∈ manual_statuses →
      determine_certificate_status s c t = x) ∧
    calculate_new_status s cur th now = cur := by
  intro s t c cur th now hp
  refine ⟨?_, ?_, ?_, ?_⟩
  · simp [calculate_days_until_expiry, hp]
  · intro hc
    cases c with
    | none =>
      simp [determine_certificate_status, calculate_days_until_expiry, hp]
    | some x =>
      have hx : x ∉ manual_statuses := by simpa using hc
      simp [determine_certificate_status, hx, calculate_days_until_expiry,
        hp]
  · intro x hx hmem
    subst hx
    simp [determine_certificate_status, hmem]
  · simp [calculate_new_status, hp]

/-- Claim C3 witness: the amended behavior at the concrete unparsable input
string not-a-date. -/
theorem C3_witness :
    calculate_days_until_expiry "not-a-date" (daysFromCivil 2026 10 12)
      = 0 ∧
    determine_certificate_status "not-a-date" (some "Active")
      (daysFromCivil 2026 10 12) = "Due for Renewal" ∧
    calculate_new_status "not-a-date" "Active" 30
      ⟨daysFromCivil 2026 10 12, false⟩ = "Active" := by
  have h := C3_amended_unparsable_date_behavior "not-a-date"
    (daysFromCivil 2026 10 12) (some "Active") "Active" 30
    ⟨daysFromCivil 2026 10 12, false⟩ (by decide)
  exact ⟨h.1, h.2.1 (by decide), h.2.2.2⟩

/-- Claim C7: the ticket-priority mapping is exactly negative days to
priority 1, zero to six days to 2, seven to thirteen to 3, fourteen to
twenty-nine to 4, thirty or more to 5, and it is monotonic: for a ≤ b the
priority at a is numerically at most the priority at b. -/
theorem C7_priority_mapping_exact_and_monotonic :
    (∀ d : Int, d < 0 → calculate_priority d = "1") ∧
    (∀ d : Int, 0 ≤ d → d ≤ 6 → calculate_priority d = "2") ∧
    (∀ d : Int, 7 ≤ d → d ≤ 13 → calculate_priority d = "3") ∧
    (∀ d : Int, 14 ≤ d → d ≤ 29 → calculate_priority d = "4") ∧
    (∀ d : Int, 30 ≤ d → calculate_priority d = "5") ∧
    (∀ a b : Int, a ≤ b →
      priorityRank (calculate_priority a) ≤
        priorityRank (calculate_priority b)) := by
  refine ⟨?_, ?_, ?_, ?_, ?_, ?_⟩
  · intro d h
    simp only [calculate_priority]
    rw [if_pos h]
  · intro d h1 h2
    simp only [calculate_priority]
    split_ifs <;> first | rfl | (exfalso; omega)
  · intro d h1 h2
    simp only [calculate_priority]
    split_ifs <;> first | rfl | (exfalso; omega)
  · intro d h1 h2
    simp only [calculate_priority]
    split_ifs <;> first | rfl | (exfalso; omega)
  · intro d h
    simp only [calculate_priority]
    split_ifs <;> first | rfl | (exfalso; omega)
  · intro a b hab
    simp only [calculate_priority]
    split_ifs <;> first | decide | (exfalso; omega)

/-- Claim C4 counterexample: an existing record without an OwnerEmail
merged with a scan observation carrying a non-empty OwnerEmail does not
adopt the observed value; the stored update writes only ExpiryDate, Status
and LastScannedOn, so the merged record still has no OwnerEmail. -/
theorem C4_counterexample :
    (store_certificate_update
      ⟨"cert-1", some "web.example.com", some "2026-01-01", some "Active",
        none, none, none, none, none, none, none, none⟩
      ⟨"cert-1", "web.example.com", "2027-01-01", "Active",
        "2026-10-12T00:00:00", some "a@x.com", none, none, none, none,
        none, none⟩).OwnerEmail = none ∧
    (⟨"cert-1", "web.example.com", "2027-01-01", "Active",
        "2026-10-12T00:00:00", some "a@x.com", none, none, none, none,
        none, none⟩ : ScanObservation).OwnerEmail = some "a@x.com" := by
  exact ⟨rfl, rfl⟩

/-- Claim C4 as amended: for every preserved field the merge keeps the
existing record's stored value unconditionally, empty or not; an observed
value for a preserved field is never adopted by the update path of either
sync, and in particular a non-empty preserved field is never replaced by
an empty observed value. -/
theorem C4_amended_preserved_fields_always_kept :
    ∀ (e : StoredCert) (o : ScanObservation) (e2 : AcmStoredCert)
      (a : AcmObservation),
    (store_certificate_update e o).OwnerEmail = e.OwnerEmail ∧
    (store_certificate_update e o).SupportEmail = e.SupportEmail ∧
    (store_certificate_update e o).Application = e.Application ∧
    (store_certificate_update e o).Notes = e.Notes ∧
    (store_certificate_update e o).RenewalHistory = e.RenewalHistory ∧
    (store_certificate_update e o).CustomTags = e.CustomTags ∧
    (store_certificate_update e o).IncidentNumber = e.IncidentNumber ∧
    (update_existing_certificate e2 a).OwnerEmail = e2.OwnerEmail ∧
    (update_existing_certificate e2 a).SupportEmail = e2.SupportEmail ∧
    (update_existing_certificate e2 a).Application = e2.Application ∧
    (update_existing_certificate e2 a).Notes = e2.Notes ∧
    (update_existing_certificate e2 a).IncidentNumber =
      e2.IncidentNumber := by
  intro e o e2 a
  exact ⟨rfl, rfl, rfl, rfl, rfl, rfl, rfl, rfl, rfl, rfl, rfl, rfl⟩

/-- Claim C5: both field-preserving merges are idempotent; applying the
merge a second time with the same observation yields exactly the record
produced by the first application. -/
theorem C5_merge_idempotent :
    ∀ (e : StoredCert) (o : ScanObservation) (e2 : AcmStoredCert)
      (a : AcmObservation),
    store_certificate_update (store_certificate_update e o) o =
      store_certificate_update e o ∧
    update_existing_certificate (update_existing_certificate e2 a) a =
      update_existing_certificate e2 a := by
  intro e o e2 a
  constructor
  · rfl
  · obtain ⟨cid, arn, ast, ex, reg, last, ty, ka, src, oe, se, ap, no,
      inc⟩ := e2
    obtain ⟨oarn, oast, onaft, oreg, olast, oty, oka⟩ := a
    cases onaft <;> cases src <;> rfl

/-- Claim C6 counterexample: a record whose IncidentNumber is the non-empty
whitespace string passes the ticket filter, because the code strips the
reference before testing it; so a record with a non-empty ticket reference
can still be selected for ticket creation. -/
theorem C6_counterexample :
    (" " : String) ≠ "" ∧
    filter_certificates_needing_tickets
      [⟨"cert-2", "api.example.com", "2026-10-20", "Active", "", "", " "⟩]
      = [⟨"cert-2", "api.example.com", "2026-10-20", "Active", "", "",
          " "⟩] := by
  decide

/-- Claim C6 as amended: a record whose ticket reference is non-empty after
stripping whitespace is never selected by the ticket filter, so at most one
ticket is created per record until the reference is cleared externally. -/
theorem C6_amended_no_ticket_when_reference_nonblank :
    ∀ (certs : List Cert) (c : Cert),
    pyStrip c.IncidentNumber ≠ "" →
    c ∉ filter_certificates_needing_tickets certs := by
  intro certs c h hmem
  rw [filter_certificates_needing_tickets, List.mem_filter] at hmem
  have hcond := hmem.2
  simp only [Bool.and_eq_true, beq_iff_eq] at hcond
  exact h hcond.1

/-- Claim C6 witness: a record with a real incident number is excluded from
the ticket filter. -/
theorem C6_witness :
    pyStrip "INC0012345" ≠ "" ∧
    (⟨"cert-3", "db.example.com", "2026-10-20", "Active", "", "",
      "INC0012345"⟩ : Cert) ∉
      filter_certificates_needing_tickets
        [⟨"cert-3", "db.example.com", "2026-10-20", "Active", "", "",
          "INC0012345"⟩] := by
  exact ⟨by decide,
    C6_amended_no_ticket_when_reference_nonblank _ _ (by decide)⟩

/-- Claim C8 counterexample: a scanned record whose status does not change
(calculate_new_status returns the stored status) is nevertheless notified,
because the monitor sends to every scanned record with a usable contact
address and never consults the status change. -/
theorem C8_counterexample :
    calculate_new_status "2026-10-22" "Due for Renewal" 30
      ⟨daysFromCivil 2026 10 12, false⟩ = "Due for Renewal" ∧
    process_notifications_sent
      (scan_expiring_certificates
        [⟨"cert-4", "mail.example.com", "2026-10-22", "Due for Renewal",
          "a@x.com", "", ""⟩] "2026-10-12" "2026-11-11") =
      [("a@x.com", [⟨"cert-4", "mail.example.com", "2026-10-22",
        "Due for Renewal", "a@x.com", "", ""⟩])] := by
  decide

/-- Claim C8 as amended: in the sweep a notification is attempted for every
processed record whose stripped owner email, or stripped support email when
different from the owner, is non-empty and contains an at sign, with no
condition on the old or new status; in particular records whose status did
not change are notified all the same. -/
theorem C8_amended_notify_on_contact_regardless_of_status :
    ∀ (certs : List Cert) (c : Cert),
    c ∈ certs →
    (pyStrip c.OwnerEmail ≠ "" →
      pyContains '@' (pyStrip c.OwnerEmail) = true →
      ∃ g ∈ process_notifications_sent certs,
        g.1 = pyStrip c.OwnerEmail ∧ c ∈ g.2) ∧
    (pyStrip c.SupportEmail ≠ "" →
      pyStrip c.SupportEmail ≠ pyStrip c.OwnerEmail →
      pyContains '@' (pyStrip c.SupportEmail) = true →
      ∃ g ∈ process_notifications_sent certs,
        g.1 = pyStrip c.SupportEmail ∧ c ∈ g.2) := by
  intro certs c hmem
  constructor
  · intro howner hat
    obtain ⟨cs, hg, hc⟩ := inGroups_foldl_mem howner certs [] hmem
    refine ⟨(pyStrip c.OwnerEmail, cs), ?_, rfl, hc⟩
    rw [process_notifications_sent, List.mem_filter]
    refine ⟨hg, ?_⟩
    simp only [Bool.and_eq_true, bne_iff_ne]
    exact ⟨howner, hat⟩
  · intro hsupp hdiff hat
    obtain ⟨cs, hg, hc⟩ :=
      inGroups_foldl_mem_support hsupp hdiff certs [] hmem
    refine ⟨(pyStrip c.SupportEmail, cs), ?_, rfl, hc⟩
    rw [process_notifications_sent, List.mem_filter]
    refine ⟨hg, ?_⟩
    simp only [Bool.and_eq_true, bne_iff_ne]
    exact ⟨hsupp, hat⟩

/-- Claim C8 witness: a concrete record with only an owner address and a
concrete record with only a support address are each in a sent
notification group. -/
theorem C8_witness :
    (∃ g ∈ process_notifications_sent
      [⟨"cert-4b", "mail2.example.com", "2026-10-22", "Due for Renewal",
        "b@x.com", "", ""⟩],
      g.1 = pyStrip "b@x.com" ∧
      (⟨"cert-4b", "mail2.example.com", "2026-10-22", "Due for Renewal",
        "b@x.com", "", ""⟩ : Cert) ∈ g.2) ∧
    (∃ g ∈ process_notifications_sent
      [⟨"cert-4c", "mail3.example.com", "2026-10-22", "Due for Renewal",
        "", "s@x.com", ""⟩],
      g.1 = pyStrip "s@x.com" ∧
      (⟨"cert-4c", "mail3.example.com", "2026-10-22", "Due for Renewal",
        "", "s@x.com", ""⟩ : Cert) ∈ g.2) := by
  constructor
  · exact (C8_amended_notify_on_contact_regardless_of_status _ _
      (List.mem_singleton.mpr rfl)).1 (by decide) (by decide)
  · exact (C8_amended_notify_on_contact_regardless_of_status _ _
      (List.mem_singleton.mpr rfl)).2 (by decide) (by decide) (by decide)

/-- Claim C9 counterexample: a spreadsheet date that no accepted format can
parse is not surfaced as an error; parse_expiry_date returns the raw string
itself, prepare_certificate_data stores it as the ExpiryDate although it is
not in the canonical format, and the record silently gets the status
Unknown. -/
theorem C9_counterexample :
    parse_expiry_date (.strVal "not-a-date") = some "not-a-date" ∧
    isCanonicalDate "not-a-date" = false ∧
    prepare_certificate_data (.strVal "not-a-date")
      ⟨daysFromCivil 2026 10 12, false⟩ =
      ⟨some "not-a-date", "Unknown"⟩ := by
  decide

/-- Claim C9 as amended: a spreadsheet date value that parses in one of the
accepted formats is stored in the canonical rendering, while an unparsable
value is stored verbatim after stripping, with only a log warning, and the
record's status silently becomes Unknown rather than a date-derived
lifecycle state. -/
theorem C9_amended_date_normalization_and_unknown_status :
    ∀ (raw : String) (now : Now),
    (∀ y m d : Nat, tryFormats (pyStrip raw) = some (y, m, d) →
      parse_expiry_date (.strVal raw) = some (strftimeYMD y m d)) ∧
    (tryFormats (pyStrip raw) = none →
      parse_expiry_date (.strVal raw) = some (pyStrip raw) ∧
      (prepare_certificate_data (.strVal raw) now).Status = "Unknown") := by
  intro raw now
  constructor
  · intro y m d h
    simp [parse_expiry_date, h]
  · intro h
    have hp : parse_expiry_date (.strVal raw) = some (pyStrip raw) := by
      simp [parse_expiry_date, h]
    refine ⟨hp, ?_⟩
    have hymd : strptimeYMD (pyStrip raw) = none := by
      cases hs : strptimeYMD (pyStrip raw) with
      | none => rfl
      | some v => simp [tryFormats, hs] at h
    by_cases he : pyStrip raw = ""
    · simp [prepare_certificate_data, hp, calculate_certificate_status, he]
    · simp [prepare_certificate_data, hp, calculate_certificate_status, he,
        parseDate, hymd]

/-- Claim C9 witness: a day-month-year slash date is normalized to the
canonical rendering, and the concrete unparsable string nonsense is stored
verbatim with status Unknown. -/
theorem C9_witness :
    parse_expiry_date (.strVal "31/12/2026") =
      some (strftimeYMD 2026 12 31) ∧
    parse_expiry_date (.strVal "nonsense") = some (pyStrip "nonsense") ∧
    (prepare_certificate_data (.strVal "nonsense")
      ⟨daysFromCivil 2026 10 12, false⟩).Status = "Unknown" := by
  have h1 := C9_amended_date_normalization_and_unknown_status "31/12/2026"
    ⟨daysFromCivil 2026 10 12, false⟩
  have h2 := C9_amended_date_normalization_and_unknown_status "nonsense"
    ⟨daysFromCivil 2026 10 12, false⟩
  exact ⟨h1.1 2026 12 31 (by decide), (h2.2 (by decide)).1,
    (h2.2 (by decide)).2⟩

/-- Claim C10 counterexample: the final clause fails for a certificate
expiring on the current date itself: it passes the sweep filter, and
because the monitor computes days until expiry against the full clock time
rather than midnight, the sweep writes the status Expired for it. -/
theorem C10_counterexample :
    is_certificate_expiring "2026-10-12" "2026-10-12" "2026-11-11"
      = true ∧
    update_certificate_statuses
      (scan_expiring_certificates
        [⟨"cert-5", "vpn.example.com", "2026-10-12", "Active", "", "",
          ""⟩] "2026-10-12" "2026-11-11") 30
      ⟨daysFromCivil 2026 10 12, false⟩ =
      [(⟨"cert-5", "vpn.example.com", "2026-10-12", "Active", "", "",
        ""⟩, "Expired")] := by
  decide

/-- Claim C10 as amended: a record whose expiry date parses and lies
strictly before the current date is rejected by the expiring filter and so
excluded from the sweep entirely: it is in no notification group, receives
no status write, and is never selected for a ticket; a certificate expiring
on the current date itself, however, is processed (see the
counterexample). -/
theorem C10_amended_expired_excluded_from_sweep :
    ∀ (items : List Cert) (cert : Cert) (cur thr : String) (e c : Int)
      (th : Int) (now : Now),
    parseDate cert.ExpiryDate = some e →
    parseDate cur = some c →
    e < c →
    cert ∉ scan_expiring_certificates items cur thr ∧
    (∀ g ∈ process_notifications_sent
      (scan_expiring_certificates items cur thr), cert ∉ g.2) ∧
    (∀ st, (cert, st) ∉ update_certificate_statuses
      (scan_expiring_certificates items cur thr) th now) ∧
    cert ∉ filter_certificates_needing_tickets
      (scan_expiring_certificates items cur thr) := by
  intro items cert cur thr e c th now hp1 hp2 hlt
  have hexp : is_certificate_expiring cert.ExpiryDate cur thr = false := by
    simp only [is_certificate_expiring, hp1, hp2]
    cases hthr : parseDate thr with
    | none => rfl
    | some tt =>
      simp only [decide_eq_false_iff_not, not_and]
      intro hce
      omega
  have hscan : cert ∉ scan_expiring_certificates items cur thr := by
    intro hmem
    rw [scan_expiring_certificates, List.mem_filter] at hmem
    have hcond := hmem.2
    rw [hexp] at hcond
    simp at hcond
  refine ⟨hscan, ?_, ?_, ?_⟩
  · intro g hg hcg
    have hfil := List.mem_filter.mp hg
    have hin : inGroups
        ((scan_expiring_certificates items cur thr).foldl groupStep [])
        g.1 cert := ⟨g.2, hfil.1, hcg⟩
    rcases mem_of_inGroups_foldl _ [] hin with habs | hmem2
    · obtain ⟨cs0, hmem0, _⟩ := habs
      simp at hmem0
    · exact hscan hmem2
  · intro st hmem
    simp only [update_certificate_statuses] at hmem
    obtain ⟨a, ha, hfa⟩ := List.mem_filterMap.mp hmem
    by_cases hne : (calculate_new_status a.ExpiryDate a.Status th now
        != a.Status) = true
    · rw [if_pos hne] at hfa
      injection hfa with hpair
      injection hpair with h1 h2
      exact hscan (h1 ▸ ha)
    · rw [if_neg hne] at hfa
      exact Option.noConfusion hfa
  · intro hmem
    rw [filter_certificates_needing_tickets, List.mem_filter] at hmem
    exact hscan hmem.1

/-- Claim C10 witness: a certificate expired before the current date is not
selected by the sweep scan. -/
theorem C10_witness :
    (⟨"cert-6", "old.example.com", "2026-10-01", "Active", "a@x.com", "",
      ""⟩ : Cert) ∉
      scan_expiring_certificates
        [⟨"cert-6", "old.example.com", "2026-10-01", "Active", "a@x.com",
          "", ""⟩] "2026-10-12" "2026-11-11" := by
  exact (C10_amended_expired_excluded_from_sweep _ _ "2026-10-12"
    "2026-11-11" (daysFromCivil 2026 10 1) (daysFromCivil 2026 10 12) 30
    ⟨daysFromCivil 2026 10 12, false⟩ (by decide) (by decide)
    (by decide)).1

/-- Claim C7 witness: the mapping and monotonicity at the concrete inputs
used by the specification examples. -/
theorem C7_witness :
    calculate_priority (-5) = "1" ∧ calculate_priority 5 = "2" ∧
    calculate_priority 10 = "3" ∧ calculate_priority 20 = "4" ∧
    calculate_priority 60 = "5" ∧
    priorityRank (calculate_priority (-5)) ≤
      priorityRank (calculate_priority 60) := by
  obtain ⟨h1, h2, h3, h4, h5, h6⟩ := C7_priority_mapping_exact_and_monotonic
  exact ⟨h1 (-5) (by decide), h2 5 (by decide) (by decide),
    h3 10 (by decide) (by decide), h4 20 (by decide) (by decide),
    h5 60 (by decide), h6 (-5) 60 (by decide)⟩

end CertMon
